import Mathlib

/-!
Verification of the BAHAMAS stack dataset (`baryon_painter/utils/datasets.py`).

The Python class `BAHAMASDataset` is shallowly embedded here:

* pixel values and the stored per-family statistics are modelled as integers
  (`ℤ`); only elementwise addition of stored values is ever performed, so no
  floating-point behaviour is relevant to the embedded operations;
* redshifts are modelled as rationals (`ℚ`): they are only compared, sorted
  and used as lookup keys;
* a memory-mapped 3d numpy array is modelled as its shape together with a
  total content function `Nat → Nat → Nat → ℤ` (stack, row, column);
* Python exceptions are modelled with `Except DatasetError`;
* Python `%` and `//` on integers (floor convention, remainder has the sign
  of the divisor) are `Int.fmod` and `Int.fdiv`.
-/

/-- Tiles (2d arrays) are modelled as total content functions. -/
abbrev Tile := Nat → Nat → ℤ

/-- Statistics dictionary `{"mean": m, "var": v}` is modelled as the pair
`(mean, var)`. -/
abbrev Stats := ℤ × ℤ

/-- One entry of the `files` argument of `BAHAMASDataset.__init__`: a dict
with a field name, a redshift, the two stack-family files (modelled by the
loaded array contents plus the numpy shape of each file) and the four stored
scalar statistics. -/
structure FileEntry where
  field : String
  z : ℚ
  arr100 : Nat → Nat → Nat → ℤ
  arr150 : Nat → Nat → Nat → ℤ
  shape100 : Nat × Nat × Nat
  shape150 : Nat × Nat × Nat
  mean_100 : ℤ
  mean_150 : ℤ
  var_100 : ℤ
  var_150 : ℤ

/-- The Python exceptions raised by the dataset code. The two `ValueError`s
raised during construction carry the set of missing items that the f-string
message enumerates. -/
inductive DatasetError where
  /-- `ValueError` from `__init__`: requested fields missing from the file
  list; the payload is the enumerated missing set. -/
  | missingFields (missing : List String)
  /-- `ValueError` from `__init__`: requested redshifts missing from the file
  list; the payload is the enumerated missing set. -/
  | missingRedshifts (missing : List ℚ)
  /-- numpy `IndexError` (out-of-bounds or non-integer array index). -/
  | indexError
  /-- `NotImplementedError` from `__getitem__` for iterable indices. -/
  | notImplementedError
  /-- `ValueError` from `get_transforms`/`get_inverse_transforms` when
  neither `idx` nor `z` is supplied. -/
  | valueErrorNoArg
  /-- `AttributeError`: `__init__` finished its loading loop without loading
  any file, so `self.n_grid` etc. were never assigned. -/
  | attributeError
deriving DecidableEq

/-- A Python value passed to `__getitem__`: a scalar int, an iterable of
ints (e.g. a list), or a non-iterable non-integer scalar such as a float
(the numeric value of the float is irrelevant to the control flow and is
carried only as data). -/
inductive PyIndex where
  | int (i : Int)
  | pylist (l : List Int)
  | pyfloat (q : ℚ)
deriving DecidableEq

/-- `isinstance(idx, collections.Iterable)`: lists are iterable, ints and
floats are not. -/
def isIterable : PyIndex → Bool
  | .pylist _ => true
  | _ => false

/-- Python set intersection `l ∩ r`, as the sublist of `l` of elements of
`r` (Python sets are unordered; lists here carry set membership). -/
def listInter [DecidableEq α] (l r : List α) : List α :=
  l.filter (fun a => decide (a ∈ r))

/-- Python set difference `l - r`. -/
def listDiff [DecidableEq α] (l r : List α) : List α :=
  l.filter (fun a => decide (a ∉ r))

/-- Python `l.issuperset(req)`. -/
def isSupersetOf [DecidableEq α] (l req : List α) : Bool :=
  req.all (fun a => decide (a ∈ l))

/-- Insert into a `≤`-sorted list of rationals, keeping it sorted. -/
def insertSortedRat (a : ℚ) : List ℚ → List ℚ
  | [] => [a]
  | b :: t => if a ≤ b then a :: b :: t else b :: insertSortedRat a t

/-- Python `sorted`, ascending (insertion sort). -/
def sortAsc (l : List ℚ) : List ℚ := l.foldr insertSortedRat []

/-- The set `self.fields` accumulated from the file list in `__init__`
(lines 56-59). -/
def availableFields (files : List FileEntry) : List String :=
  (files.map (fun f => f.field)).dedup

/-- The set `self.redshifts` accumulated from the file list in `__init__`
(lines 56-59). -/
def availableRedshifts (files : List FileEntry) : List ℚ :=
  (files.map (fun f => f.z)).dedup

/-- The set `set([input_field] + label_fields)` from `__init__` line 65/68. -/
def requestedFields (input_field : String) (label_fields : List String) :
    List String :=
  (input_field :: label_fields).dedup

/-- The dict-of-dicts `self.data` assigns, for each (field, z), the data of
the last file entry with that key (later entries overwrite earlier ones). -/
def lastEntryFor (retained : List FileEntry) (fld : String) (zv : ℚ) :
    Option FileEntry :=
  (retained.filter (fun f => decide (f.field = fld) && decide (f.z = zv))).getLast?

/-- Post-construction state of a `BAHAMASDataset` object: the attributes
assigned by `__init__`.  The transform callables keep their Python
signature `f(x, field, z, **stats)`; their codomain is modelled as `Tile`
(the default forward transform is the identity). -/
structure BAHAMASDataset where
  input_field : String
  label_fields : List String
  /-- `self.redshifts`, sorted ascending (line 82). -/
  redshifts : List ℚ
  /-- `self.data[field][z]["100"]` contents (keys outside the loaded table
  are mapped to the zero array; the Python dict would raise `KeyError`,
  which no verified operation relies on). -/
  data100 : String → ℚ → Nat → Nat → Nat → ℤ
  data150 : String → ℚ → Nat → Nat → Nat → ℤ
  mean_100 : String → ℚ → ℤ
  mean_150 : String → ℚ → ℤ
  var_100 : String → ℚ → ℤ
  var_150 : String → ℚ → ℤ
  n_stack_100 : Nat
  n_stack_150 : Nat
  n_grid : Nat
  n_tile : Nat
  transform : Tile → String → ℚ → Stats → Tile
  inverse_transform : Tile → String → ℚ → Stats → Tile

namespace BAHAMASDataset

/-- `self.tile_size = self.n_grid//self.n_tile` (line 115): Python floor
division, with no divisibility check. -/
def tile_size (ds : BAHAMASDataset) : Nat := ds.n_grid / ds.n_tile

/-- `self.n_sample = (self.n_stack_100*self.n_tile**2)*(self.n_stack_150*self.n_tile**2)`
(line 116). -/
def n_sample (ds : BAHAMASDataset) : Nat :=
  (ds.n_stack_100 * ds.n_tile ^ 2) * (ds.n_stack_150 * ds.n_tile ^ 2)

/-- `__len__` (line 326): `self.n_sample*len(self.redshifts)`. -/
def length (ds : BAHAMASDataset) : Nat := ds.n_sample * ds.redshifts.length

end BAHAMASDataset

/-- `np.unravel_index(flat, dims=(d0, d1, d2, d3, d4, d5))`: row-major
unraveling of `flat` against a 6-dimensional shape.  (numpy raises for
`flat` not below the product of the dims; every call site feeds an in-range
index, where the top coordinate equals `flat` integer-divided by
`d1*d2*d3*d4*d5` and the reduction below agrees with it.) -/
def unravel_index6 (flat d0 d1 d2 d3 d4 d5 : Nat) :
    Nat × Nat × Nat × Nat × Nat × Nat :=
  let i5 := flat % d5
  let r5 := flat / d5
  let i4 := r5 % d4
  let r4 := r5 / d4
  let i3 := r4 % d3
  let r3 := r4 / d3
  let i2 := r3 % d2
  let r2 := r3 / d2
  let i1 := r2 % d1
  let r1 := r2 / d1
  (r1 % d0, i1, i2, i3, i4, i5)

/-- The row-major (mixed-radix) flattening of a 6-dimensional coordinate of
shape `(d0, d1, d2, d3, d4, d5)`: the inverse direction of
`unravel_index6`, used to state the bijection property of the decoding. -/
def ravel_index6 (d1 d2 d3 d4 d5 : Nat) :
    Nat × Nat × Nat × Nat × Nat × Nat → Nat
  | (i0, i1, i2, i3, i4, i5) =>
    ((((i0 * d1 + i1) * d2 + i2) * d3 + i3) * d4 + i4) * d5 + i5

namespace BAHAMASDataset

/-- `flat_idx % self.n_sample` from `get_stack` (line 243): Python `%` on a
possibly negative `flat_idx` with positive modulus, hence `Int.fmod`,
converted to `Nat` (the result is nonnegative for positive `n_sample`). -/
def local_sample_idx (ds : BAHAMASDataset) (flat_idx : Int) : Nat :=
  (Int.fmod flat_idx (ds.n_sample : ℤ)).toNat

/-- Lines 243-246 of `get_stack`: reduce the flat index modulo `n_sample`
and unravel against `(n_stack_100, n_tile, n_tile, n_stack_150, n_tile, n_tile)`. -/
def unraveled_idx (ds : BAHAMASDataset) (flat_idx : Int) :
    Nat × Nat × Nat × Nat × Nat × Nat :=
  unravel_index6 (ds.local_sample_idx flat_idx)
    ds.n_stack_100 ds.n_tile ds.n_tile ds.n_stack_150 ds.n_tile ds.n_tile

/-- The full flat-index decoding of the sample-retrieval path: the redshift
index `idx//self.n_sample` (line 262) together with the local 6-dimensional
coordinate (lines 243-246). -/
def decode_sample_idx (ds : BAHAMASDataset) (idx : Int) :
    Int × (Nat × Nat × Nat × Nat × Nat × Nat) :=
  (Int.fdiv idx (ds.n_sample : ℤ), ds.unraveled_idx idx)

/-- Re-encoding of a decoded (redshift index, 6-tuple) pair via the
mixed-radix formula `z_idx * n_sample + ravel(tuple)`. -/
def encode_sample_idx (ds : BAHAMASDataset)
    (p : Int × (Nat × Nat × Nat × Nat × Nat × Nat)) : Int :=
  p.1 * (ds.n_sample : ℤ) +
    ((ravel_index6 ds.n_tile ds.n_tile ds.n_stack_150 ds.n_tile ds.n_tile p.2 : Nat) : ℤ)

/-- `get_stack_stats` (lines 197-220): mean and var are the sums of the
stored per-family scalars. -/
def get_stack_stats (ds : BAHAMASDataset) (field : String) (z : ℚ) : Stats :=
  (ds.mean_100 field z + ds.mean_150 field z,
   ds.var_100 field z + ds.var_150 field z)

/-- `get_stack` (lines 222-257): decode the (mod-reduced) flat index, crop
the two square tiles `[r*tile_size:(r+1)*tile_size, c*tile_size:(c+1)*tile_size]`
out of the selected stacks, and return their elementwise sum together with
`get_stack_stats`.  A cropped tile is embedded as the offset view of the
stack contents. -/
def get_stack (ds : BAHAMASDataset) (field : String) (z : ℚ) (flat_idx : Int) :
    Tile × Stats :=
  match ds.unraveled_idx flat_idx with
  | (s100, r100, c100, s150, r150, c150) =>
    (fun i j =>
        ds.data100 field z s100 (r100 * ds.tile_size + i) (c100 * ds.tile_size + j) +
        ds.data150 field z s150 (r150 * ds.tile_size + i) (c150 * ds.tile_size + j),
     ds.get_stack_stats field z)

end BAHAMASDataset

/-- numpy 1d integer indexing `arr[i]`: negative indices wrap once by the
array length, anything still out of `[0, len)` raises `IndexError`. -/
def numpy_get (l : List ℚ) (i : Int) : Except DatasetError ℚ :=
  let j := if i < 0 then i + (l.length : ℤ) else i
  if 0 ≤ j ∧ j < (l.length : ℤ) then .ok (l.getD j.toNat 0)
  else .error .indexError

namespace BAHAMASDataset

/-- `sample_idx_to_redshift` (lines 259-264): `redshift_idx = idx//self.n_sample`
(Python floor division) followed by the numpy lookup `self.redshifts[redshift_idx]`. -/
def sample_idx_to_redshift (ds : BAHAMASDataset) (idx : Int) :
    Except DatasetError ℚ :=
  numpy_get ds.redshifts (Int.fdiv idx (ds.n_sample : ℤ))

/-- `get_input_sample` (lines 266-289).  The `tf` flag is the `transform`
keyword argument. -/
def get_input_sample (ds : BAHAMASDataset) (idx : Int) (tf : Bool) :
    Except DatasetError Tile :=
  match ds.sample_idx_to_redshift idx with
  | .error e => .error e
  | .ok z =>
    let p := ds.get_stack ds.input_field z idx
    .ok (if tf then ds.transform p.1 ds.input_field z p.2 else p.1)

/-- `get_label_sample` (lines 291-318): one stack per label field, in the
order of `self.label_fields`. -/
def get_label_sample (ds : BAHAMASDataset) (idx : Int) (tf : Bool) :
    Except DatasetError (List Tile) :=
  match ds.sample_idx_to_redshift idx with
  | .error e => .error e
  | .ok z =>
    .ok (ds.label_fields.map (fun fld =>
      let p := ds.get_stack fld z idx
      if tf then ds.transform p.1 fld z p.2 else p.1))

/-- `create_transform` (lines 126-129): close the stored transform over
`(field, z, stats)`. -/
def create_transform (ds : BAHAMASDataset) (field : String) (z : ℚ)
    (stats : Stats) : Tile → Tile :=
  fun x => ds.transform x field z stats

/-- `create_inverse_transform` (lines 131-134). -/
def create_inverse_transform (ds : BAHAMASDataset) (field : String) (z : ℚ)
    (stats : Stats) : Tile → Tile :=
  fun x => ds.inverse_transform x field z stats

/-- `get_transforms` (lines 136-164): one closure per field, input field
first, each parameterized by the field, the redshift decoded from `idx`
(unless `z` is given) and `get_stack_stats`. -/
def get_transforms (ds : BAHAMASDataset) (idx : Option Int) (z : Option ℚ) :
    Except DatasetError (List (Tile → Tile)) :=
  match idx, z with
  | none, none => .error .valueErrorNoArg
  | _, some zv =>
    .ok ((ds.input_field :: ds.label_fields).map (fun fld =>
      ds.create_transform fld zv (ds.get_stack_stats fld zv)))
  | some i, none =>
    match ds.sample_idx_to_redshift i with
    | .error e => .error e
    | .ok zv =>
      .ok ((ds.input_field :: ds.label_fields).map (fun fld =>
        ds.create_transform fld zv (ds.get_stack_stats fld zv)))

/-- `get_inverse_transforms` (lines 166-195). -/
def get_inverse_transforms (ds : BAHAMASDataset) (idx : Option Int)
    (z : Option ℚ) : Except DatasetError (List (Tile → Tile)) :=
  match idx, z with
  | none, none => .error .valueErrorNoArg
  | _, some zv =>
    .ok ((ds.input_field :: ds.label_fields).map (fun fld =>
      ds.create_inverse_transform fld zv (ds.get_stack_stats fld zv)))
  | some i, none =>
    match ds.sample_idx_to_redshift i with
    | .error e => .error e
    | .ok zv =>
      .ok ((ds.input_field :: ds.label_fields).map (fun fld =>
        ds.create_inverse_transform fld zv (ds.get_stack_stats fld zv)))

/-- `__getitem__` (lines 328-350): `if not isinstance(idx, collections.Iterable)`
assemble `[input_sample] + label_samples` with the index echoed back,
otherwise raise `NotImplementedError`.  A non-iterable non-integer index
(e.g. a float) passes the guard; the redshift lookup
`self.redshifts[idx//n_sample]` then raises numpy's `IndexError` because a
float is not a valid array index. -/
def getitem (ds : BAHAMASDataset) : PyIndex → Except DatasetError (List Tile × PyIndex)
  | .pylist _ => .error .notImplementedError
  | .int i =>
    match ds.get_input_sample i true, ds.get_label_sample i true with
    | .ok d, .ok ls => .ok (d :: ls, .int i)
    | .error e, _ => .error e
    | .ok _, .error e => .error e
  | .pyfloat _ => .error .indexError

/-- `__init__` (lines 41-124).  Mirrors the construction control flow:
scan the file list, apply the label-field allow-list check (lines 63-69),
then the redshift allow-list check (lines 74-80), sort the retained
redshifts ascending, load the retained files (the loop of lines 85-112,
whose final shape assignments come from the last retained file), and
derive the geometry.  Degenerate Python behaviours are mirrored too: no
retained file leaves `self.n_grid` unassigned (`AttributeError`), and
`tile_size` is the unchecked floor division of line 115. -/
def init (files : List FileEntry) (redshifts : List ℚ) (input_field : String)
    (label_fields : List String) (n_tile : Nat)
    (transform : Tile → String → ℚ → Stats → Tile)
    (inverse_transform : Tile → String → ℚ → Stats → Tile) :
    Except DatasetError BAHAMASDataset :=
  let avail_fields := availableFields files
  let avail_zs := availableRedshifts files
  let req := requestedFields input_field label_fields
  if label_fields.isEmpty = false ∧ isSupersetOf avail_fields req = false then
    .error (.missingFields (listDiff req avail_fields))
  else
    let fields := if label_fields.isEmpty then avail_fields
      else listInter avail_fields req
    if redshifts.isEmpty = false ∧ isSupersetOf avail_zs redshifts = false then
      .error (.missingRedshifts (listDiff redshifts.dedup avail_zs))
    else
      let zs := if redshifts.isEmpty then avail_zs
        else listInter avail_zs redshifts
      let zs_sorted := sortAsc zs
      let retained := files.filter (fun f =>
        decide (f.field ∈ fields) && decide (f.z ∈ zs_sorted))
      match retained.getLast? with
      | none => .error .attributeError
      | some last =>
        .ok { input_field := input_field
              label_fields := listDiff fields [input_field]
              redshifts := zs_sorted
              data100 := fun fld zv s i j =>
                match lastEntryFor retained fld zv with
                | some e => e.arr100 s i j
                | none => 0
              data150 := fun fld zv s i j =>
                match lastEntryFor retained fld zv with
                | some e => e.arr150 s i j
                | none => 0
              mean_100 := fun fld zv =>
                match lastEntryFor retained fld zv with
                | some e => e.mean_100
                | none => 0
              mean_150 := fun fld zv =>
                match lastEntryFor retained fld zv with
                | some e => e.mean_150
                | none => 0
              var_100 := fun fld zv =>
                match lastEntryFor retained fld zv with
                | some e => e.var_100
                | none => 0
              var_150 := fun fld zv =>
                match lastEntryFor retained fld zv with
                | some e => e.var_150
                | none => 0
              n_stack_100 := last.shape100.1
              n_grid := last.shape100.2.1
              n_stack_150 := last.shape150.1
              n_tile := n_tile
              transform := transform
              inverse_transform := inverse_transform }

end BAHAMASDataset

/-! ### Concrete instances used to witness the theorems -/

/-- The default transform of the Python constructor:
`lambda x, field, z, **kwargs: x`. -/
def exTransform : Tile → String → ℚ → Stats → Tile := fun x _ _ _ => x

/-- A concrete stack-array content function with distinguishable entries. -/
def exArr (base : ℤ) : Nat → Nat → Nat → ℤ :=
  fun s i j => base + (s : ℤ) * 100 + (i : ℤ) * 10 + (j : ℤ)

/-- A small concrete dataset state: one 100-stack, one 150-stack, one tile
per axis, grid side 2, redshifts `[0, 1]`; so `n_sample = 1` and
`length = 2`. -/
def exDS : BAHAMASDataset where
  input_field := "dm"
  label_fields := ["gas"]
  redshifts := [0, 1]
  data100 := fun _ _ => exArr 1
  data150 := fun _ _ => exArr 2
  mean_100 := fun _ _ => 1
  mean_150 := fun _ _ => 2
  var_100 := fun _ _ => 3
  var_150 := fun _ _ => 4
  n_stack_100 := 1
  n_stack_150 := 1
  n_grid := 2
  n_tile := 1
  transform := exTransform
  inverse_transform := exTransform

/-- A dataset state with nontrivial decoding: 2 100-stacks, 3 150-stacks,
2 tiles per axis, grid side 4; so `n_sample = (2*4)*(3*4) = 96` and
`length = 192`. -/
def exDSbig : BAHAMASDataset :=
  { exDS with n_stack_100 := 2, n_stack_150 := 3, n_grid := 4, n_tile := 2 }

/-- `exDSbig` with the tile count doubled (4 tiles per axis). -/
def exDSdouble : BAHAMASDataset := { exDSbig with n_tile := 4 }

/-- A file entry whose grid side (10) is not divisible by the tile count
used in the tests below (4). -/
def c4entry : FileEntry where
  field := "dm"
  z := 0
  arr100 := exArr 1
  arr150 := exArr 2
  shape100 := (1, 10, 10)
  shape150 := (1, 10, 10)
  mean_100 := 1
  mean_150 := 2
  var_100 := 3
  var_150 := 4

/-- Construction over a 10-pixel grid with 4 requested tiles per axis
(`10 % 4 ≠ 0`). -/
def c4res : Except DatasetError BAHAMASDataset :=
  BAHAMASDataset.init [c4entry] [] "dm" [] 4 exTransform exTransform

/-- The dataset produced by `c4res` (it succeeds). -/
def c4ds : BAHAMASDataset := c4res.toOption.getD exDS

/-- Construction requesting both a missing label field (`"gas"`) and a
missing redshift (`1`): only `"dm"` at redshift `0` is available. -/
def c7res : Except DatasetError BAHAMASDataset :=
  BAHAMASDataset.init [c4entry] [1] "dm" ["gas"] 4 exTransform exTransform

/-- The untransformed input sample of `exDS` at index 0. -/
def c8d0 : Tile := (exDS.get_input_sample 0 false).toOption.getD (fun _ _ => 0)

/-- The transformed input sample of `exDS` at index 0. -/
def c8d1 : Tile := (exDS.get_input_sample 0 true).toOption.getD (fun _ _ => 0)

/-- The transform list of `exDS` at index 0. -/
def c8ts : List (Tile → Tile) := (exDS.get_transforms (some 0) none).toOption.getD []

/-- The first element of `c8ts`. -/
def c8t : Tile → Tile := c8ts.headD (fun x => x)

/-- The transform list of `exDS` at index 1. -/
def c10ts : List (Tile → Tile) := (exDS.get_transforms (some 1) none).toOption.getD []

/-- The untransformed label samples of `exDS` at index 1. -/
def c10lsU : List Tile := (exDS.get_label_sample 1 false).toOption.getD []

/-- The transformed label samples of `exDS` at index 1. -/
def c10lsT : List Tile := (exDS.get_label_sample 1 true).toOption.getD []

/-- The transformed input sample of `exDS` at index 1. -/
def c10d : Tile := (exDS.get_input_sample 1 true).toOption.getD (fun _ _ => 0)

/-! ### Helper lemmas -/

/-- Python `//` on two nonnegative ints is `Nat` division. -/
theorem fdiv_natCast (m n : Nat) : Int.fdiv (m : ℤ) (n : ℤ) = ((m / n : Nat) : ℤ) :=
  (Int.ofNat_fdiv m n).symm

/-- Python `%` on two nonnegative ints is the `Nat` remainder. -/
theorem fmod_natCast (m n : Nat) : Int.fmod (m : ℤ) (n : ℤ) = ((m % n : Nat) : ℤ) :=
  (Int.ofNat_fmod m n).symm

/-- Row-major flattening undoes row-major unraveling on every in-range
flat index. -/
theorem ravel_unravel6 (d0 d1 d2 d3 d4 d5 x : Nat)
    (h : x < d0 * d1 * d2 * d3 * d4 * d5) :
    ravel_index6 d1 d2 d3 d4 d5 (unravel_index6 x d0 d1 d2 d3 d4 d5) = x := by
  have hb : x / d5 / d4 / d3 / d2 / d1 < d0 := by
    have h2 : x < d5 * (d4 * (d3 * (d2 * d1))) * d0 := by
      calc x < d0 * d1 * d2 * d3 * d4 * d5 := h
        _ = d5 * (d4 * (d3 * (d2 * d1))) * d0 := by ring
    rw [Nat.div_div_eq_div_mul, Nat.div_div_eq_div_mul, Nat.div_div_eq_div_mul,
      Nat.div_div_eq_div_mul]
    exact Nat.div_lt_of_lt_mul h2
  show ((((x / d5 / d4 / d3 / d2 / d1 % d0 * d1 + x / d5 / d4 / d3 / d2 % d1) * d2 +
      x / d5 / d4 / d3 % d2) * d3 + x / d5 / d4 % d3) * d4 + x / d5 % d4) * d5 + x % d5 = x
  rw [Nat.mod_eq_of_lt hb, Nat.div_add_mod', Nat.div_add_mod', Nat.div_add_mod',
    Nat.div_add_mod', Nat.div_add_mod']

/-- A failed superset check exhibits a member of `req` outside `l`, hence a
nonempty difference list. -/
theorem listDiff_ne_nil_of_not_superset [DecidableEq α] {l req : List α}
    (h : isSupersetOf l req = false) : listDiff req l ≠ [] := by
  unfold isSupersetOf at h
  rw [List.all_eq_false] at h
  obtain ⟨a, ha, hna⟩ := h
  have hnl : a ∉ l := by simpa using hna
  exact List.ne_nil_of_mem (List.mem_filter.mpr ⟨ha, by simpa using hnl⟩)

/-! ### Claim theorems -/

/-- Claim C1: for every flat index `idx` in `[0, length())`, decoding
(`redshift index = idx div n_sample`, then row-major unraveling of
`idx mod n_sample` against `(n_stack_100, n_tile, n_tile, n_stack_150,
n_tile, n_tile)`) followed by re-encoding via the mixed-radix formula
reproduces `idx` exactly. -/
theorem c1_decode_encode_roundtrip (ds : BAHAMASDataset) (idx : Nat)
    (h : idx < ds.length) :
    ds.encode_sample_idx (ds.decode_sample_idx (idx : ℤ)) = (idx : ℤ) := by
  have hn : 0 < ds.n_sample := by
    rcases Nat.eq_zero_or_pos ds.n_sample with h0 | h0
    · rw [BAHAMASDataset.length, h0] at h
      simp at h
    · exact h0
  have hbound : idx % ds.n_sample <
      ds.n_stack_100 * ds.n_tile * ds.n_tile * ds.n_stack_150 * ds.n_tile * ds.n_tile := by
    calc idx % ds.n_sample < ds.n_sample := Nat.mod_lt idx hn
      _ = ds.n_stack_100 * ds.n_tile * ds.n_tile * ds.n_stack_150 * ds.n_tile * ds.n_tile := by
        rw [BAHAMASDataset.n_sample]; ring
  simp only [BAHAMASDataset.encode_sample_idx, BAHAMASDataset.decode_sample_idx,
    BAHAMASDataset.unraveled_idx, BAHAMASDataset.local_sample_idx]
  rw [fdiv_natCast, fmod_natCast, Int.toNat_ofNat,
    ravel_unravel6 _ _ _ _ _ _ _ hbound]
  exact_mod_cast Nat.div_add_mod' idx ds.n_sample

/-- Witness for C1: index 100 of the 192-sample dataset `exDSbig`
round-trips. -/
theorem c1_decode_encode_roundtrip_witness :
    100 < exDSbig.length ∧
    exDSbig.encode_sample_idx (exDSbig.decode_sample_idx ((100 : Nat) : ℤ)) =
      ((100 : Nat) : ℤ) :=
  ⟨by decide, c1_decode_encode_roundtrip exDSbig 100 (by decide)⟩

/-- Claim C2: for every field, redshift and decoded 6-tuple, `get_stack`
returns the elementwise sum of the "100" tile cropped at
`[r100*tile_size:(r100+1)*tile_size, c100*tile_size:(c100+1)*tile_size]`
of stack `s100` and the symmetric "150" tile, together with the statistics
`mean = mean_100+mean_150` and `var = var_100+var_150` computed from the
stored per-family scalars (not from the tile's pixel values). -/
theorem c2_get_stack_tile_sum_and_stats (ds : BAHAMASDataset) (field : String)
    (z : ℚ) (flat_idx : Int) (s100 r100 c100 s150 r150 c150 : Nat)
    (h : ds.unraveled_idx flat_idx = (s100, r100, c100, s150, r150, c150)) :
    (∀ i j, (ds.get_stack field z flat_idx).1 i j =
        ds.data100 field z s100 (r100 * ds.tile_size + i) (c100 * ds.tile_size + j) +
        ds.data150 field z s150 (r150 * ds.tile_size + i) (c150 * ds.tile_size + j)) ∧
    (ds.get_stack field z flat_idx).2 =
        (ds.mean_100 field z + ds.mean_150 field z,
         ds.var_100 field z + ds.var_150 field z) := by
  unfold BAHAMASDataset.get_stack
  rw [h]
  exact ⟨fun i j => rfl, rfl⟩

/-- Witness for C2: index 50 of `exDSbig` decodes to `(1,0,0,0,1,0)` and the
returned tile and statistics have the claimed values at pixel `(0,1)`. -/
theorem c2_get_stack_tile_sum_and_stats_witness :
    exDSbig.unraveled_idx 50 = (1, 0, 0, 0, 1, 0) ∧
    (exDSbig.get_stack "dm" 0 50).1 0 1 =
      exDSbig.data100 "dm" 0 1 (0 * exDSbig.tile_size + 0) (0 * exDSbig.tile_size + 1) +
      exDSbig.data150 "dm" 0 0 (1 * exDSbig.tile_size + 0) (0 * exDSbig.tile_size + 1) ∧
    (exDSbig.get_stack "dm" 0 50).2 =
      (exDSbig.mean_100 "dm" 0 + exDSbig.mean_150 "dm" 0,
       exDSbig.var_100 "dm" 0 + exDSbig.var_150 "dm" 0) :=
  ⟨by decide,
   (c2_get_stack_tile_sum_and_stats exDSbig "dm" 0 50 1 0 0 0 1 0 (by decide)).1 0 1,
   (c2_get_stack_tile_sum_and_stats exDSbig "dm" 0 50 1 0 0 0 1 0 (by decide)).2⟩

/-- Claim C3: `length()` is `n_sample * number_of_redshifts` with
`n_sample = (n_stack_100*n_tile^2)*(n_stack_150*n_tile^2)`, and doubling
`n_tile` (same stack counts) multiplies `n_sample` by 16. -/
theorem c3_length_and_tile_scaling (ds dsT : BAHAMASDataset) :
    ds.length = ds.n_sample * ds.redshifts.length ∧
    ds.n_sample = (ds.n_stack_100 * ds.n_tile ^ 2) * (ds.n_stack_150 * ds.n_tile ^ 2) ∧
    (dsT.n_stack_100 = ds.n_stack_100 → dsT.n_stack_150 = ds.n_stack_150 →
      dsT.n_tile = 2 * ds.n_tile → dsT.n_sample = 16 * ds.n_sample) := by
  refine ⟨rfl, rfl, fun h1 h2 h3 => ?_⟩
  unfold BAHAMASDataset.n_sample
  rw [h1, h2, h3]
  ring

/-- Witness for C3: doubling the tile count of `exDSbig` (2 → 4 tiles per
axis) multiplies `n_sample` by 16. -/
theorem c3_length_and_tile_scaling_witness :
    exDSdouble.n_tile = 2 * exDSbig.n_tile ∧
    exDSdouble.n_sample = 16 * exDSbig.n_sample :=
  ⟨by decide, (c3_length_and_tile_scaling exDSbig exDSdouble).2.2 rfl rfl (by decide)⟩

/-- Claim C6: `get_stack` reduces its flat index modulo `n_sample` before
decoding, so it agrees on `flat_idx` and `flat_idx mod n_sample` for every
integer `flat_idx` (Python `%` with positive modulus): the local decoding
is cyclic and never raises.  Positivity of `n_sample` reflects that the
Python `%` would raise `ZeroDivisionError` on a degenerate dataset. -/
theorem c6_get_stack_wraps_modulo (ds : BAHAMASDataset) (hn : 0 < ds.n_sample)
    (field : String) (z : ℚ) (flat_idx : Int) :
    ds.get_stack field z flat_idx =
      ds.get_stack field z (Int.fmod flat_idx (ds.n_sample : ℤ)) := by
  have hcast : (0 : ℤ) ≤ (ds.n_sample : ℤ) := Int.natCast_nonneg _
  have key : Int.fmod (Int.fmod flat_idx (ds.n_sample : ℤ)) (ds.n_sample : ℤ) =
      Int.fmod flat_idx (ds.n_sample : ℤ) := by
    rw [Int.fmod_eq_emod _ hcast, Int.fmod_eq_emod _ hcast,
      Int.emod_emod_of_dvd _ dvd_rfl]
  have harg : ds.unraveled_idx (Int.fmod flat_idx (ds.n_sample : ℤ)) =
      ds.unraveled_idx flat_idx := by
    unfold BAHAMASDataset.unraveled_idx BAHAMASDataset.local_sample_idx
    rw [key]
  unfold BAHAMASDataset.get_stack
  rw [harg]

/-- Witness for C6: index 100 and 100 mod 96 give the same stack of
`exDSbig`. -/
theorem c6_get_stack_wraps_modulo_witness :
    0 < exDSbig.n_sample ∧
    exDSbig.get_stack "dm" 0 100 =
      exDSbig.get_stack "dm" 0 (Int.fmod 100 (exDSbig.n_sample : ℤ)) :=
  ⟨by decide, c6_get_stack_wraps_modulo exDSbig (by decide) "dm" 0 100⟩

/-- Helper: the statistics component of `get_stack` is `get_stack_stats`. -/
theorem get_stack_snd (ds : BAHAMASDataset) (field : String) (z : ℚ)
    (flat_idx : Int) :
    (ds.get_stack field z flat_idx).2 = ds.get_stack_stats field z := rfl

/-- Claim C5 (amended): for `idx ≥ total_length` the redshift decoding (and
hence the whole sample-retrieval path) raises `IndexError`, but a negative
`idx` with `-total_length ≤ idx < 0` is wrapped by Python floor division
and numpy negative indexing to a valid redshift instead of raising. -/
theorem c5_redshift_decode_bounds (ds : BAHAMASDataset) (idx : Int)
    (hn : 0 < ds.n_sample) :
    ((ds.length : ℤ) ≤ idx →
      ds.sample_idx_to_redshift idx = .error .indexError ∧
      ds.get_input_sample idx true = .error .indexError) ∧
    (-(ds.length : ℤ) ≤ idx → idx < 0 →
      ∃ zv, ds.sample_idx_to_redshift idx = .ok zv) := by
  have hn2 : (0 : ℤ) < (ds.n_sample : ℤ) := by exact_mod_cast hn
  have hfd : Int.fdiv idx (ds.n_sample : ℤ) = idx / (ds.n_sample : ℤ) :=
    Int.fdiv_eq_ediv _ (le_of_lt hn2)
  have hlen : (ds.length : ℤ) = (ds.n_sample : ℤ) * (ds.redshifts.length : ℤ) := by
    rw [BAHAMASDataset.length]
    push_cast
    ring
  have hlen0 : (0 : ℤ) ≤ (ds.redshifts.length : ℤ) := Int.natCast_nonneg _
  constructor
  · intro hge
    rw [hlen] at hge
    have hri : (ds.redshifts.length : ℤ) ≤ idx / (ds.n_sample : ℤ) := by
      rw [Int.le_ediv_iff_mul_le hn2]
      calc (ds.redshifts.length : ℤ) * (ds.n_sample : ℤ)
          = (ds.n_sample : ℤ) * (ds.redshifts.length : ℤ) := by ring
        _ ≤ idx := hge
    have h1 : ds.sample_idx_to_redshift idx = .error .indexError := by
      simp only [BAHAMASDataset.sample_idx_to_redshift, numpy_get, hfd]
      have hj : (if idx / (ds.n_sample : ℤ) < 0 then
          idx / (ds.n_sample : ℤ) + (ds.redshifts.length : ℤ)
          else idx / (ds.n_sample : ℤ)) = idx / (ds.n_sample : ℤ) :=
        if_neg (by omega)
      rw [hj, if_neg (by omega)]
    refine ⟨h1, ?_⟩
    simp only [BAHAMASDataset.get_input_sample, h1]
  · intro hgeneg hlt
    rw [hlen] at hgeneg
    have hri1 : -(ds.redshifts.length : ℤ) ≤ idx / (ds.n_sample : ℤ) := by
      rw [Int.le_ediv_iff_mul_le hn2]
      calc -(ds.redshifts.length : ℤ) * (ds.n_sample : ℤ)
          = -((ds.n_sample : ℤ) * (ds.redshifts.length : ℤ)) := by ring
        _ ≤ idx := hgeneg
    have hri2 : idx / (ds.n_sample : ℤ) < 0 := Int.ediv_neg' hlt hn2
    simp only [BAHAMASDataset.sample_idx_to_redshift, numpy_get, hfd]
    rw [if_pos hri2, if_pos (by constructor <;> omega)]
    exact ⟨_, rfl⟩

/-- Counterexample to C5 as stated: on `exDS` (total length 2) the negative
index `-1` does not raise; it wraps to the last redshift. -/
theorem c5_negative_index_wraps_counterexample :
    (-1 : ℤ) < 0 ∧ exDS.sample_idx_to_redshift (-1) = .ok 1 :=
  ⟨by decide, rfl⟩

/-- Witness for C5 (amended): index 5 of the length-2 dataset `exDS` raises
`IndexError` in the redshift decoding. -/
theorem c5_redshift_decode_bounds_witness :
    0 < exDS.n_sample ∧ exDS.sample_idx_to_redshift 5 = .error .indexError :=
  ⟨by decide, ((c5_redshift_decode_bounds exDS 5 (by decide)).1 (by decide)).1⟩

/-- Claim C4 (amended): construction performs no divisibility check between
the grid side and the tile count: whenever it succeeds it silently sets
`tile_size = n_grid floor-div n_tile`, and its only failure modes are the
missing-field error, the missing-redshift error, and the no-file-loaded
`AttributeError` — never a tile-size error. -/
theorem c4_construction_truncates_tile_size (files : List FileEntry)
    (rs : List ℚ) (input : String) (lf : List String) (nt : Nat)
    (tf itf : Tile → String → ℚ → Stats → Tile) :
    (∀ ds, BAHAMASDataset.init files rs input lf nt tf itf = .ok ds →
      ds.n_tile = nt ∧ ds.tile_size = ds.n_grid / ds.n_tile) ∧
    (∀ e, BAHAMASDataset.init files rs input lf nt tf itf = .error e →
      (∃ m, e = .missingFields m) ∨ (∃ m, e = .missingRedshifts m) ∨
        e = .attributeError) := by
  constructor
  · intro ds h
    simp only [BAHAMASDataset.init] at h
    split at h
    · exact Except.noConfusion h
    · split at h
      · exact Except.noConfusion h
      · split at h
        · exact Except.noConfusion h
        · injection h with h2
          subst h2
          exact ⟨rfl, rfl⟩
  · intro e h
    simp only [BAHAMASDataset.init] at h
    split at h
    · injection h with h2
      subst h2
      exact Or.inl ⟨_, rfl⟩
    · split at h
      · injection h with h2
        subst h2
        exact Or.inr (Or.inl ⟨_, rfl⟩)
      · split at h
        · injection h with h2
          subst h2
          exact Or.inr (Or.inr rfl)
        · exact Except.noConfusion h

/-- Counterexample to C4 as stated: a grid side of 10 with 4 requested
tiles per axis (`10 % 4 ≠ 0`) does not fail construction; it succeeds with
the truncated `tile_size = 2`. -/
theorem c4_silent_truncation_counterexample :
    c4res.isOk = true ∧ (10 : Nat) % 4 ≠ 0 ∧
    c4res.toOption.map BAHAMASDataset.tile_size = some 2 :=
  ⟨rfl, by decide, rfl⟩

/-- Witness for C4 (amended): the non-divisible construction `c4res`
succeeds and its tile size is the floor quotient. -/
theorem c4_construction_truncates_tile_size_witness :
    BAHAMASDataset.init [c4entry] [] "dm" [] 4 exTransform exTransform = .ok c4ds ∧
    c4ds.n_tile = 4 ∧ c4ds.tile_size = c4ds.n_grid / c4ds.n_tile :=
  ⟨rfl,
   (c4_construction_truncates_tile_size [c4entry] [] "dm" [] 4
     exTransform exTransform).1 c4ds rfl⟩

/-- Helper: a failed superset check also leaves the difference of the
deduplicated request nonempty. -/
theorem listDiff_dedup_ne_nil_of_not_superset [DecidableEq α] {l req : List α}
    (h : isSupersetOf l req = false) : listDiff req.dedup l ≠ [] := by
  unfold isSupersetOf at h
  rw [List.all_eq_false] at h
  obtain ⟨a, ha, hna⟩ := h
  have hnl : a ∉ l := by simpa using hna
  exact List.ne_nil_of_mem
    (List.mem_filter.mpr ⟨List.mem_dedup.mpr ha, by simpa using hnl⟩)

/-- Claim C7 (amended): if a label-field allow-list is given and the
available fields are not a superset of `{input_field} ∪ label_fields`,
construction fails with a `ValueError` naming the (nonempty) missing field
set; if that check passes (or no label allow-list is given), a redshift
allow-list with unavailable entries makes construction fail with a
`ValueError` naming the (nonempty) missing redshift set.  When both checks
would fail, the field error takes precedence.  In either failure no dataset
is produced. -/
theorem c7_allow_list_validation (files : List FileEntry) (rs : List ℚ)
    (input : String) (lf : List String) (nt : Nat)
    (tf itf : Tile → String → ℚ → Stats → Tile) :
    (lf ≠ [] → isSupersetOf (availableFields files) (requestedFields input lf) = false →
      BAHAMASDataset.init files rs input lf nt tf itf =
        .error (.missingFields (listDiff (requestedFields input lf) (availableFields files))) ∧
      listDiff (requestedFields input lf) (availableFields files) ≠ []) ∧
    ((lf = [] ∨ isSupersetOf (availableFields files) (requestedFields input lf) = true) →
      rs ≠ [] → isSupersetOf (availableRedshifts files) rs = false →
      BAHAMASDataset.init files rs input lf nt tf itf =
        .error (.missingRedshifts (listDiff rs.dedup (availableRedshifts files))) ∧
      listDiff rs.dedup (availableRedshifts files) ≠ []) := by
  constructor
  · intro hne hsup
    have hlfe : lf.isEmpty = false := by
      cases lf with
      | nil => exact absurd rfl hne
      | cons a t => rfl
    refine ⟨?_, listDiff_ne_nil_of_not_superset hsup⟩
    simp [BAHAMASDataset.init, hlfe, hsup]
  · intro hfok hrsne hzsup
    have hrse : rs.isEmpty = false := by
      cases rs with
      | nil => exact absurd rfl hrsne
      | cons a t => rfl
    refine ⟨?_, listDiff_dedup_ne_nil_of_not_superset hzsup⟩
    cases lf with
    | nil => simp [BAHAMASDataset.init, hrse, hzsup]
    | cons a t =>
      have hsup2 : isSupersetOf (availableFields files)
          (requestedFields input (a :: t)) = true := by
        rcases hfok with h | h
        · exact absurd h (by simp)
        · exact h
      simp [BAHAMASDataset.init, hsup2, hrse, hzsup]

/-- Counterexample to C7 as stated: requesting both a missing label field
and a missing redshift fails with the error naming only the missing fields;
the raised error does not name the missing redshifts. -/
theorem c7_field_error_precedence_counterexample :
    isSupersetOf (availableRedshifts [c4entry]) [(1 : ℚ)] = false ∧
    c7res = .error (.missingFields ["gas"]) :=
  ⟨by decide, rfl⟩

/-- Witness for C7 (amended): a missing label field alone, and a missing
redshift alone, each abort construction naming the missing item. -/
theorem c7_allow_list_validation_witness :
    BAHAMASDataset.init [c4entry] [] "dm" ["gas"] 4 exTransform exTransform =
      .error (.missingFields ["gas"]) ∧
    BAHAMASDataset.init [c4entry] [(1 : ℚ)] "dm" [] 4 exTransform exTransform =
      .error (.missingRedshifts [(1 : ℚ)]) :=
  ⟨((c7_allow_list_validation [c4entry] [] "dm" ["gas"] 4 exTransform
      exTransform).1 (by decide) (by decide)).1,
   ((c7_allow_list_validation [c4entry] [(1 : ℚ)] "dm" [] 4 exTransform
      exTransform).2 (Or.inl rfl) (by decide) (by decide)).1⟩

/-- Claim C8: applying the first function returned by `get_transforms(idx)`
to the untransformed input sample equals the transformed input sample: the
closure path and the inline path use the same (field, redshift, stats). -/
theorem c8_transform_path_consistency (ds : BAHAMASDataset) (idx : Int)
    (d0 d1 : Tile) (ts : List (Tile → Tile)) (t : Tile → Tile)
    (h0 : ds.get_input_sample idx false = .ok d0)
    (h1 : ds.get_input_sample idx true = .ok d1)
    (ht : ds.get_transforms (some idx) none = .ok ts)
    (hh : ts.head? = some t) :
    t d0 = d1 := by
  cases hz : ds.sample_idx_to_redshift idx with
  | error e =>
    simp only [BAHAMASDataset.get_input_sample, hz] at h0
    exact Except.noConfusion h0
  | ok z =>
    simp [BAHAMASDataset.get_input_sample, hz] at h0 h1
    simp [BAHAMASDataset.get_transforms, hz] at ht
    subst h0
    subst h1
    subst ht
    simp at hh
    subst hh
    rfl

/-- Witness for C8: on `exDS` at index 0 the first transform applied to the
raw input sample gives the transformed input sample. -/
theorem c8_transform_path_consistency_witness :
    exDS.get_input_sample 0 false = .ok c8d0 ∧
    exDS.get_input_sample 0 true = .ok c8d1 ∧
    exDS.get_transforms (some 0) none = .ok c8ts ∧
    c8ts.head? = some c8t ∧
    c8t c8d0 = c8d1 :=
  ⟨rfl, rfl, rfl, rfl,
   c8_transform_path_consistency exDS 0 c8d0 c8d1 c8ts c8t rfl rfl rfl rfl⟩

/-- Claim C9 (amended): `__getitem__` rejects iterable (batched) indices
with `NotImplementedError`; a non-iterable non-integer index such as a
float is not caught by that guard and instead fails with numpy's
`IndexError` in the redshift lookup. -/
theorem c9_getitem_index_type_dispatch (ds : BAHAMASDataset) (l : List Int)
    (q : ℚ) :
    isIterable (.pylist l) = true ∧
    ds.getitem (.pylist l) = .error .notImplementedError ∧
    isIterable (.pyfloat q) = false ∧
    ds.getitem (.pyfloat q) = .error .indexError :=
  ⟨rfl, rfl, rfl, rfl⟩

/-- Counterexample to C9 as stated: the non-integer index `3/2` is not
rejected with the unsupported-operation error (`NotImplementedError`); it
produces `IndexError` instead. -/
theorem c9_float_index_counterexample :
    isIterable (.pyfloat (3 / 2)) = false ∧
    exDS.getitem (.pyfloat (3 / 2)) ≠ .error .notImplementedError := by
  refine ⟨rfl, fun h => ?_⟩
  simp [BAHAMASDataset.getitem] at h

/-- Claim C10: the label-field list fixed at construction is used
identically by `get_label_sample`, `get_transforms`,
`get_inverse_transforms` (after the leading input-field entry) and item
access: the `(i+1)`-th transform corresponds elementwise to the `i`-th
label array. -/
theorem c10_label_ordering_alignment (ds : BAHAMASDataset) (idx : Int)
    (ts : List (Tile → Tile)) (lsU lsT : List Tile)
    (hts : ds.get_transforms (some idx) none = .ok ts)
    (hU : ds.get_label_sample idx false = .ok lsU)
    (hT : ds.get_label_sample idx true = .ok lsT) :
    ts.length = 1 + ds.label_fields.length ∧
    lsU.length = ds.label_fields.length ∧
    lsT.length = ds.label_fields.length ∧
    (∀ j, j < ds.label_fields.length →
      ts.getD (j + 1) (fun x => x) (lsU.getD j (fun _ _ => 0)) =
        lsT.getD j (fun _ _ => 0)) ∧
    (∀ its, ds.get_inverse_transforms (some idx) none = .ok its →
      its.length = 1 + ds.label_fields.length) ∧
    (∀ d, ds.get_input_sample idx true = .ok d →
      ds.getitem (.int idx) = .ok (d :: lsT, .int idx)) := by
  cases hz : ds.sample_idx_to_redshift idx with
  | error e =>
    simp only [BAHAMASDataset.get_transforms, hz] at hts
    exact Except.noConfusion hts
  | ok z =>
    simp [BAHAMASDataset.get_transforms, hz] at hts
    simp [BAHAMASDataset.get_label_sample, hz] at hU hT
    subst hts
    subst hU
    subst hT
    refine ⟨by simp [Nat.add_comm], by simp, by simp, ?_, ?_, ?_⟩
    · intro j hj
      have hjget : ds.label_fields[j]? = some ds.label_fields[j] :=
        List.getElem?_eq_getElem hj
      simp [List.getD_eq_getElem?_getD, List.getElem?_map,
        List.getElem?_cons_succ, hjget, BAHAMASDataset.create_transform,
        get_stack_snd]
    · intro its hits
      simp [BAHAMASDataset.get_inverse_transforms, hz] at hits
      subst hits
      simp [Nat.add_comm]
    · intro d hd
      simp [BAHAMASDataset.getitem, hd, BAHAMASDataset.get_label_sample, hz]

/-- Witness for C10: on `exDS` at index 1 (one label field, `"gas"`), the
second transform applied to the raw label array gives the transformed
label array. -/
theorem c10_label_ordering_alignment_witness :
    exDS.get_transforms (some 1) none = .ok c10ts ∧
    exDS.get_label_sample 1 false = .ok c10lsU ∧
    exDS.get_label_sample 1 true = .ok c10lsT ∧
    c10ts.length = 1 + exDS.label_fields.length ∧
    c10ts.getD 1 (fun x => x) (c10lsU.getD 0 (fun _ _ => 0)) =
      c10lsT.getD 0 (fun _ _ => 0) :=
  ⟨rfl, rfl, rfl,
   (c10_label_ordering_alignment exDS 1 c10ts c10lsU c10lsT rfl rfl rfl).1,
   (c10_label_ordering_alignment exDS 1 c10ts c10lsU c10lsT rfl rfl
     rfl).2.2.2.1 0 (by decide)⟩

/-- Witness for C9 (amended): concrete dispatch of a list index and a float
index on `exDS`. -/
theorem c9_getitem_index_type_dispatch_witness :
    isIterable (.pylist [0]) = true ∧
    exDS.getitem (.pylist [0]) = .error .notImplementedError ∧
    isIterable (.pyfloat (3 / 2)) = false ∧
    exDS.getitem (.pyfloat (3 / 2)) = .error .indexError :=
  c9_getitem_index_type_dispatch exDS [0] (3 / 2)
